import Mathlib

/-!
Verification development for the Grain-QR-Detection image pipeline.

The Python source is shallowly embedded: pure computations (navigation index
arithmetic, quad expansion/clipping, crop-rectangle derivation, the
hex/zlib/json payload decoder chain) become Lean functions; the external
vision/compression/serialization libraries (qreader, cv2.aruco, zlib, json,
utf-8) are opaque capabilities and are modelled as records of functions,
with the contracts those libraries guarantee stated as propositional fields.
Machine floats are modelled as exact rationals; Python `int()` truncation is
modelled explicitly.  Stateful request handling (the Flask drive branch of
`get_processed_image_data`) is modelled as a pure function from the session
state and an outcome of the external world to the resulting response and
session state.
-/

/-! ## Navigation (flask_app/app.py `navigate`, lines 1101-1131; same index
arithmetic in all three collection branches and in app.py lines 575-608). -/

/-- Direction of a navigation step (`'next'` / `'prev'`). -/
inductive NavDir
  | next
  | prev
deriving DecidableEq

/-- The index update performed by `navigate`:
`new_index = current_index + 1 if current_index < total_images - 1 else current_index`
for `'next'`, and
`new_index = current_index - 1 if current_index > 0 else current_index`
for `'prev'`. -/
def navAdvance (total : Nat) (i : Int) : NavDir → Int
  | .next => if i < (total : Int) - 1 then i + 1 else i
  | .prev => if i > 0 then i - 1 else i

/-- The cursor invariant: `-1 ≤ index ≤ total-1`, and `0 ≤ index` whenever the
collection is non-empty (the collection setters initialise the index to `0`
for a non-empty collection and `-1` for an empty one). -/
def navValid (total : Nat) (i : Int) : Prop :=
  -1 ≤ i ∧ i < (total : Int) ∧ (0 < total → 0 ≤ i)

instance (total : Nat) (i : Int) : Decidable (navValid total i) := by
  unfold navValid; infer_instance

/-- A finite sequence of navigation steps, folded over the session cursor. -/
def navFold (total : Nat) (i : Int) (ds : List NavDir) : Int :=
  ds.foldl (navAdvance total) i

/-! ## Geometry (flask_app/utils/detect_and_draw_qr.py lines 115-132;
identical formulas in detect_and_draw_qr.py lines 80-113).
Coordinates are modelled as exact rationals. -/

/-- A 2-D point in source-image coordinates. -/
abbrev Pt := ℚ × ℚ

/-- Sum of a list of rationals. -/
def qsum (l : List ℚ) : ℚ := l.foldr (· + ·) 0

/-- The centroid `np.mean(current_points, axis=0)` of a quad. -/
def centroid (ps : List Pt) : Pt :=
  (qsum (ps.map Prod.fst) / ps.length, qsum (ps.map Prod.snd) / ps.length)

/-- Centroid-relative 10% expansion:
`expanded_points = centroid + 1.1 * (current_points - centroid)`. -/
def expandQuad (ps : List Pt) : List Pt :=
  let c := centroid ps
  ps.map fun p => (c.1 + (11/10 : ℚ) * (p.1 - c.1), c.2 + (11/10 : ℚ) * (p.2 - c.2))

/-- `np.clip(v, lo, hi)`: maximum with `lo`, then minimum with `hi`. -/
def npClip (v lo hi : ℚ) : ℚ := min (max v lo) hi

/-- Clipping of every coordinate into the image:
x into `[0, img_width - 1]`, y into `[0, img_height - 1]`. -/
def clipPoints (ps : List Pt) (imgWidth imgHeight : Nat) : List Pt :=
  ps.map fun p => (npClip p.1 0 ((imgWidth : ℚ) - 1), npClip p.2 0 ((imgHeight : ℚ) - 1))

/-- Python `int()` on a real value: truncation toward zero (also the
`np.int32` cast used for the drawn polygon). -/
def pyInt (q : ℚ) : Int := if q < 0 then ⌈q⌉ else ⌊q⌋

/-- `np.min` over a coordinate list (value `0` for the empty list, which the
detector never produces). -/
def listMinQ : List ℚ → ℚ
  | [] => 0
  | x :: xs => xs.foldl min x

/-- `np.max` over a coordinate list. -/
def listMaxQ : List ℚ → ℚ
  | [] => 0
  | x :: xs => xs.foldl max x

/-- Minimum x coordinate of a point list. -/
def minX (ps : List Pt) : ℚ := listMinQ (ps.map Prod.fst)

/-- Minimum y coordinate of a point list. -/
def minY (ps : List Pt) : ℚ := listMinQ (ps.map Prod.snd)

/-- Maximum x coordinate of a point list. -/
def maxX (ps : List Pt) : ℚ := listMaxQ (ps.map Prod.fst)

/-- Maximum y coordinate of a point list. -/
def maxY (ps : List Pt) : ℚ := listMaxQ (ps.map Prod.snd)

/-- The crop rectangle derived from the expanded (clipped) points, exactly as
the source computes it:
`crop_x_start = int(np.min(x_coords))`, `crop_y_start = int(np.min(y_coords))`,
`crop_x_end = int(np.max(x_coords)) + 1`, `crop_y_end = int(np.max(y_coords)) + 1`. -/
def cropRect (ps : List Pt) : Int × Int × Int × Int :=
  (pyInt (minX ps), pyInt (minY ps), pyInt (maxX ps) + 1, pyInt (maxY ps) + 1)

/-- The crop rectangle as the spec words it (`x0 = floor(min x)`,
`x1 = ceil(max x) + 1`, symmetric for y), stated for comparison with
`cropRect`, which is translated from the source. -/
def specCropRect (ps : List Pt) : Int × Int × Int × Int :=
  (⌊minX ps⌋, ⌊minY ps⌋, ⌈maxX ps⌉ + 1, ⌈maxY ps⌉ + 1)

/-- The `np.int32` cast of the expanded points handed to `cv2.polylines`. -/
def intPoints (ps : List Pt) : List (Int × Int) :=
  ps.map fun p => (pyInt p.1, pyInt p.2)

/-! ## PayloadCodec (flask_app/utils/detect_and_draw_qr.py lines 9-34,
`_decode_zlib_json_qr`; same chain in read_qr.py lines 9-17,
`decode_and_decompress`).  Bytes are `Fin 256`; `bytes.fromhex` is embedded
concretely; zlib, utf-8 and json are external libraries, modelled as a record
of functions whose propositional fields state the library contracts. -/

/-- A byte value. -/
abbrev Byte := Fin 256

/-- The hexadecimal value of a character, as accepted by `bytes.fromhex`
(digits, lowercase and uppercase letters). -/
def hexValue? (c : Char) : Option (Fin 16) :=
  if h : 48 ≤ c.toNat ∧ c.toNat ≤ 57 then some ⟨c.toNat - 48, by omega⟩
  else if h : 97 ≤ c.toNat ∧ c.toNat ≤ 102 then some ⟨c.toNat - 87, by omega⟩
  else if h : 65 ≤ c.toNat ∧ c.toNat ≤ 70 then some ⟨c.toNat - 55, by omega⟩
  else none

/-- ASCII whitespace, skipped between byte pairs by `bytes.fromhex`. -/
def isPyAsciiWhitespace (c : Char) : Bool :=
  c = ' ' || c = '\t' || c = '\n' || c = '\r' || c.toNat = 11 || c.toNat = 12

/-- Worker for `bytes.fromhex`: ASCII whitespace may separate two-digit byte
pairs; the two digits of a pair must be adjacent; anything else is a
`ValueError` (modelled as `none`). -/
def bytesFromhexAux : List Char → Option (List Byte)
  | [] => some []
  | c :: cs =>
    if isPyAsciiWhitespace c then bytesFromhexAux cs
    else
      (hexValue? c).bind fun hi =>
        match cs with
        | [] => none
        | d :: cs' =>
          (hexValue? d).bind fun lo =>
            (bytesFromhexAux cs').map
              (fun bs => (⟨16 * hi.val + lo.val, by omega⟩ : Byte) :: bs)

/-- `bytes.fromhex(s)`, returning `none` where Python raises `ValueError`. -/
def bytesFromhex (s : String) : Option (List Byte) := bytesFromhexAux s.data

/-- The lowercase hexadecimal digit for a value below 16 (as produced by
`bytes.hex()`). -/
def hexDigitChar (n : Nat) : Char :=
  if n < 10 then Char.ofNat (48 + n) else Char.ofNat (87 + n)

/-- The two lowercase hexadecimal digits of one byte. -/
def byteHexChars (b : Byte) : List Char :=
  [hexDigitChar (b.val / 16), hexDigitChar (b.val % 16)]

/-- Modelled from the spec: the payload generator is not under src/ (only the
decoders are); §4.2 describes the encoding as hexadecimal text over the
compressed serialized document, i.e. Python `bytes.hex()`: each byte as two
lowercase hexadecimal digits. -/
def bytesHex (bs : List Byte) : String := ⟨bs.flatMap byteHexChars⟩

/-- The external compression/serialization capabilities used by the decoder
chain, together with the contracts the Python libraries guarantee:
`zlib.decompress` inverts `zlib.compress`, utf-8 decoding inverts utf-8
encoding, and `json.loads` inverts `json.dumps` on serializable documents. -/
structure PayloadCodecModel (Doc : Type) where
  compress : List Byte → List Byte
  decompress : List Byte → Option (List Byte)
  utf8Encode : String → List Byte
  utf8Decode : List Byte → Option String
  jsonDumps : Doc → String
  jsonLoads : String → Option Doc
  decompress_compress : ∀ bs, decompress (compress bs) = some bs
  utf8Decode_utf8Encode : ∀ s, utf8Decode (utf8Encode s) = some s
  jsonLoads_jsonDumps : ∀ d, jsonLoads (jsonDumps d) = some d

/-- The argument handed to `_decode_zlib_json_qr`: a Python `str`, or a value
of any other type (rejected by the `isinstance` guard). -/
inductive QRContent
  | str (s : String)
  | nonStr

/-- `_decode_zlib_json_qr`: hex-decode, decompress, utf-8-decode, json-parse;
every stage failure (and a non-string input) yields `None`. -/
def decodeZlibJsonQr {Doc : Type} (M : PayloadCodecModel Doc) : QRContent → Option Doc
  | .nonStr => none
  | .str s =>
    match bytesFromhex s with
    | none => none
    | some compressedData =>
      match M.decompress compressedData with
      | none => none
      | some raw =>
        match M.utf8Decode raw with
        | none => none
        | some jsonStr => M.jsonLoads jsonStr

/-- Modelled from the spec: the encoder (absent from src/) producing
`hex(zlib(json(d)))` for a structured document `d` (§4.2 PayloadCodec). -/
def encodePayload {Doc : Type} (M : PayloadCodecModel Doc) (d : Doc) : String :=
  bytesHex (M.compress (M.utf8Encode (M.jsonDumps d)))

/-- Three-byte big-endian encoding of one character's code point (a concrete
text-to-bytes encoding used to instantiate `PayloadCodecModel` in witnesses). -/
def charBytes (c : Char) : List Byte :=
  [⟨c.toNat / 65536 % 256, Nat.mod_lt _ (by omega)⟩,
   ⟨c.toNat / 256 % 256, Nat.mod_lt _ (by omega)⟩,
   ⟨c.toNat % 256, Nat.mod_lt _ (by omega)⟩]

/-- Inverse of `charBytes`, mapped over a byte list in chunks of three. -/
def charsOfBytes : List Byte → Option (List Char)
  | [] => some []
  | b0 :: b1 :: b2 :: rest =>
    (charsOfBytes rest).map
      (fun cs => Char.ofNat (b0.val * 65536 + b1.val * 256 + b2.val) :: cs)
  | _ => none

/-- `charBytes` mapped over a character list. -/
def charListBytes : List Char → List Byte
  | [] => []
  | c :: cs => charBytes c ++ charListBytes cs

/-- A concrete `PayloadCodecModel` over the unit document, used to
instantiate the parametric codec theorems on a fully evaluable input. -/
def unitCodecModel : PayloadCodecModel Unit where
  compress := id
  decompress := some
  utf8Encode s := charListBytes s.data
  utf8Decode bs := (charsOfBytes bs).map fun cs => ⟨cs⟩
  jsonDumps _ := ""
  jsonLoads _ := some ()
  decompress_compress _ := rfl
  utf8Decode_utf8Encode s := by
    have hchunk : ∀ l : List Char, charsOfBytes (charListBytes l) = some l := by
      intro l
      induction l with
      | nil => rfl
      | cons c cs ih =>
        have hlt : c.toNat < 1114112 := by
          have hv := c.valid
          rcases hv with h | ⟨_, h⟩
          · exact Nat.lt_trans h (by decide)
          · exact h
        have hval : c.toNat / 65536 % 256 * 65536 + c.toNat / 256 % 256 * 256 +
            c.toNat % 256 = c.toNat := by omega
        show (charsOfBytes (charListBytes cs)).map
            (fun l => Char.ofNat (c.toNat / 65536 % 256 * 65536 +
              c.toNat / 256 % 256 * 256 + c.toNat % 256) :: l) = some (c :: cs)
        rw [ih]
        show some (Char.ofNat (c.toNat / 65536 % 256 * 65536 +
          c.toNat / 256 % 256 * 256 + c.toNat % 256) :: cs) = some (c :: cs)
        rw [hval, Char.ofNat_toNat]
    show (charsOfBytes (charListBytes s.data)).map (fun cs => String.mk cs) = some s
    rw [hchunk s.data]
    rfl
  jsonLoads_jsonDumps _ := rfl

/-! ## CodeLocator (flask_app/utils/detect_and_draw_qr.py lines 36-160,
`detect_and_draw_qrcodes`; standalone variant detect_and_draw_qr.py lines
6-141).  The qreader engine and the cv2/numpy raster operations are opaque
capabilities, modelled as records of functions; buffers have value
semantics, so `copy()` is the identity on values and drawing produces a new
value. -/

/-- The `quad_xy` field of one detection record: absent, present but not
convertible by `np.array` (raising `ValueError`/`TypeError`), or a point
list. -/
inductive QuadField
  | missing
  | malformed
  | pts (ps : List Pt)

/-- One candidate produced by `qreader.detect`. -/
structure Detection where
  quad : QuadField

/-- Outcome of `qreader.decode` on one candidate: an exception, no text
(`None`), or a decoded string. -/
inductive DecodeOutcome
  | raises
  | decoded (t : Option String)

/-- The raster operations the locator uses (cv2/numpy capabilities). -/
structure ImgOps (Img : Type) where
  dims : Img → Nat × Nat
  toRGB : Img → Img
  polylines : Img → List (Int × Int) → Img
  crop : Img → Int × Int × Int × Int → Img
  size : Img → Nat

/-- The qreader engine: `detect` returns `None` or a candidate list,
`decode` is attempted per candidate on the RGB raster. -/
structure QREngine (Img : Type) where
  detect : Img → Option (List Detection)
  decode : Img → Detection → DecodeOutcome

/-- The loop state of `detect_and_draw_qrcodes` (flask variant): the display
raster, the lazily-created-copy flag, and the three aligned result lists. -/
structure LocatorState (Img Doc : Type) where
  display : Img
  made : Bool
  crops : List Img
  texts : List String
  jsons : List (Option Doc)

/-- One iteration of the flask candidate loop (lines 94-152): a decode
exception `continue`s; a `None` text draws nothing; a decoded candidate
without `quad_xy` draws nothing; otherwise the quad is expanded, clipped,
drawn on the display copy, and the crop/text/structured-record entries are
appended only when the crop rectangle is non-degenerate and the slice is
non-empty.  A malformed quad makes the display copy (before the `try`) but
raises at `np.array`, so nothing is drawn or appended. -/
def processCandidate {Img Doc : Type} (ops : ImgOps Img) (M : PayloadCodecModel Doc)
    (E : QREngine Img) (orig rgb : Img) (st : LocatorState Img Doc) (d : Detection) :
    LocatorState Img Doc :=
  match E.decode rgb d with
  | .raises => st
  | .decoded none => st
  | .decoded (some text) =>
    match d.quad with
    | .missing => st
    | .malformed => { st with made := true }
    | .pts qp =>
      let ih := (ops.dims orig).1
      let iw := (ops.dims orig).2
      let ex := clipPoints (expandQuad qp) iw ih
      let disp := ops.polylines st.display (intPoints ex)
      let r := cropRect ex
      if r.1 < r.2.2.1 ∧ r.2.1 < r.2.2.2 then
        let c := ops.crop orig r
        if 0 < ops.size c then
          { display := disp, made := true, crops := st.crops ++ [c],
            texts := st.texts ++ [text],
            jsons := st.jsons ++ [decodeZlibJsonQr M (.str text)] }
        else { st with display := disp, made := true }
      else { st with display := disp, made := true }

/-- The input to `detect_and_draw_qrcodes`: a path (whose `cv2.imread` may
fail), an already-loaded array (copied on entry), or an invalid type. -/
inductive ImageInput (Img : Type)
  | path (load : Option Img)
  | array (img : Img)
  | invalid

/-- The body of `detect_and_draw_qrcodes` once the raster is in hand: RGB
conversion, detection (a falsy result — `None` or the empty list — skips the
loop), the candidate fold, and the assembly of the three result lists. -/
def detectAndDrawQrcodesLoaded {Img Doc : Type} (ops : ImgOps Img)
    (M : PayloadCodecModel Doc) (E : QREngine Img) (orig : Img) :
    List Img × List String × List (Option Doc) :=
  let rgb := ops.toRGB orig
  let ds := (E.detect rgb).getD []
  let st := ds.foldl (processCandidate ops M E orig rgb)
    ⟨orig, false, [], [], []⟩
  (st.display :: st.crops, st.texts, st.jsons)

/-- `detect_and_draw_qrcodes` (flask variant): returns `none` where Python
returns `(None, None, None)`; otherwise the display raster followed by the
crops, the decoded texts, and the structured-decode results. -/
def detectAndDrawQrcodes {Img Doc : Type} (ops : ImgOps Img) (M : PayloadCodecModel Doc)
    (E : QREngine Img) (input : ImageInput Img) :
    Option (List Img × List String × List (Option Doc)) :=
  match input with
  | .path none => none
  | .invalid => none
  | .path (some orig) => some (detectAndDrawQrcodesLoaded ops M E orig)
  | .array orig => some (detectAndDrawQrcodesLoaded ops M E orig)

/-- The loop state of the standalone variant (detect_and_draw_qr.py): only
the display raster and the crop list. -/
structure StandaloneState (Img : Type) where
  display : Img
  crops : List Img

/-- One iteration of the standalone candidate loop (lines 60-135): the
decode outcome is only printed — whenever `quad_xy` is present and
convertible, the polygon is drawn and the crop appended, regardless of
whether decoding succeeded. -/
def processCandidateStandalone {Img : Type} (ops : ImgOps Img) (orig : Img)
    (st : StandaloneState Img) (d : Detection) : StandaloneState Img :=
  match d.quad with
  | .missing => st
  | .malformed => st
  | .pts qp =>
    let ih := (ops.dims orig).1
    let iw := (ops.dims orig).2
    let ex := clipPoints (expandQuad qp) iw ih
    let disp := ops.polylines st.display (intPoints ex)
    let r := cropRect ex
    if r.1 < r.2.2.1 ∧ r.2.1 < r.2.2.2 then
      let c := ops.crop orig r
      if 0 < ops.size c then ⟨disp, st.crops ++ [c]⟩
      else ⟨disp, st.crops⟩
    else ⟨disp, st.crops⟩

/-- Concrete raster operations over `Img := Nat` for fully evaluable
instantiations: drawing increments the value, so a drawn raster differs from
an undrawn one. -/
def natImgOps : ImgOps Nat where
  dims _ := (10, 10)
  toRGB i := i
  polylines i _ := i + 1
  crop i _ := i
  size _ := 1

/-- A concrete engine that finds no candidates. -/
def emptyEngine : QREngine Nat where
  detect _ := none
  decode _ _ := .decoded none

/-- A concrete candidate with a square quad strictly inside a 10×10 image. -/
def demoDetection : Detection := ⟨.pts [(1, 2), (5, 2), (5, 6), (1, 6)]⟩

/-- A concrete engine whose decoder always raises. -/
def raisingEngine : QREngine Nat where
  detect _ := some [demoDetection]
  decode _ _ := .raises

/-- A concrete engine that finds one candidate and decodes it to `"00"`. -/
def decodingEngine : QREngine Nat where
  detect _ := some [demoDetection]
  decode _ _ := .decoded (some "00")

/-! ## BoardLocator (charuco_detector.py lines 34-136 `detect_charuco_board`,
consumed by flask_app/app.py `process_image` lines 308-329).  The
`cv2.aruco` detector is opaque; what matters is the shape of
`detect_charuco_board`'s return value and how `process_image` folds it into
`charuco_detected`. -/

/-- The id arrays of a successful `detect_charuco_board` call: the
interpolated ChArUco corner ids and the raw ArUco marker ids (each possibly
`None`). -/
structure DetectBoardRes where
  charucoIds : Option (List Nat)
  markerIds : Option (List Nat)

/-- Outcome of the ChArUco stage inside `process_image`: the module may be
unavailable (import failure), the call may raise (caught and logged), or it
returns — `none` standing for the all-`None` failure tuple (unreadable
raster or unknown dictionary), `some r` for a tuple with a drawn image. -/
inductive CharucoCall
  | unavailable
  | raises
  | returns (r : Option DetectBoardRes)

/-- The `charuco_detected` flag computed by `process_image`: `True` exactly
when `charuco_output is not None` and `charuco_ids is not None and
len(charuco_ids) > 0`. -/
def charucoDetected : CharucoCall → Bool
  | .unavailable => false
  | .raises => false
  | .returns none => false
  | .returns (some r) =>
    match r.charucoIds with
    | none => false
    | some ids => decide (0 < ids.length)

/-- The number of interpolated board corners reported by the detection call
(zero when the stage is unavailable, raised, failed, or reported `None`). -/
def interpolatedCornerCount : CharucoCall → Nat
  | .returns (some r) =>
    match r.charucoIds with
    | none => 0
    | some ids => ids.length
  | _ => 0

/-- The number of raw ArUco markers reported by the detection call. -/
def markerCount : CharucoCall → Nat
  | .returns (some r) =>
    match r.markerIds with
    | none => 0
    | some ids => ids.length
  | _ => 0

/-! ## Remote acquisition (flask_app/app.py `get_processed_image_data`,
drive branch, lines 365-445; the identical logic is at app.py lines
179-260).  The branch is modelled as a pure function from the session
state, the requested index and the outcome of the external world (token
refresh, chunked download, image processing) to the response status, the
resulting session state, and the fate of the scratch file. -/

/-- The stored Google credential record, reduced to the fields the branch
inspects: presence of all required keys, expiry, and a refresh token. -/
structure CredsDict where
  hasAllFields : Bool
  expired : Bool
  hasRefreshToken : Bool

/-- Outcome of the chunked download: completion, an `HttpError` with a
status code raised by `next_chunk`, or any other exception mid-transfer. -/
inductive DownloadOutcome
  | success
  | raiseHttp (code : Nat)
  | raiseOther

/-- The external world of one drive-branch call. -/
structure DriveWorld where
  refreshOk : Bool
  download : DownloadOutcome
  processOk : Bool

/-- The session state the drive branch reads and writes. -/
structure DriveEnv where
  numFiles : Nat
  creds : Option CredsDict
  storedIndex : Int

/-- The observable result of one drive-branch call: HTTP status of the
returned payload, the session's `current_drive_image_index` afterwards,
whether `google_credentials` is still stored, whether the scratch file
remains on disk after the `finally` block, and whether any network/file
I/O was performed. -/
structure DriveCallResult where
  status : Nat
  storedIndex : Int
  credsPresent : Bool
  scratchRemains : Bool
  ioPerformed : Bool

/-- The drive branch of `get_processed_image_data`, in source order: bounds
check, credential presence, required-field check (`ValueError` → 401 and
credential removal), token refresh (failure → generic exception → 500),
scratch-file creation and chunked download (an exception mid-transfer
propagates with `download_attempted_or_successful` still `False`, so the
`finally` block does not delete the partial scratch file; an `HttpError`
maps to its status code, 401 also removing the credential), then
`process_image` (an exception → 500, scratch deleted), and on success the
session index is set to `index` and 200 returned with the scratch deleted. -/
def getProcessedImageDataDrive (env : DriveEnv) (index : Int) (w : DriveWorld) :
    DriveCallResult :=
  if ¬(0 ≤ index ∧ index < (env.numFiles : Int)) then
    ⟨400, env.storedIndex, env.creds.isSome, false, false⟩
  else
    match env.creds with
    | none => ⟨401, env.storedIndex, false, false, false⟩
    | some c =>
      if ¬c.hasAllFields then
        ⟨401, env.storedIndex, false, false, false⟩
      else if c.expired ∧ c.hasRefreshToken ∧ ¬w.refreshOk then
        ⟨500, env.storedIndex, true, false, true⟩
      else
        match w.download with
        | .raiseHttp code => ⟨code, env.storedIndex, decide (code ≠ 401), true, true⟩
        | .raiseOther => ⟨500, env.storedIndex, true, true, true⟩
        | .success =>
          if w.processOk then ⟨200, index, true, false, true⟩
          else ⟨500, env.storedIndex, true, false, true⟩

/-! ## Theorems -/

/-- C4: for every collection (empty or not) and every finite sequence of
Next/Prev navigation steps, the cursor index stays within `[-1, total-1]`
(within `[0, total-1]` when the collection is non-empty), Next is clamped at
`total-1` and Prev is clamped at `0` (never wrapping); `navAdvance` is a
total function, so no navigation step throws. -/
theorem navigate_cursor_clamped_within_bounds (total : Nat) (i : Int)
    (ds : List NavDir) (h : navValid total i) :
    navValid total (navFold total i ds) ∧
    navAdvance total ((total : Int) - 1) .next = (total : Int) - 1 ∧
    navAdvance total 0 .prev = 0 := by
  refine ⟨?_, ?_, ?_⟩
  · have step : ∀ (j : Int) (d : NavDir), navValid total j →
        navValid total (navAdvance total j d) := by
      intro j d hj
      cases d <;> simp only [navAdvance] <;> split <;>
        unfold navValid at hj ⊢ <;> omega
    induction ds generalizing i with
    | nil => exact h
    | cons d rest ih => exact ih (navAdvance total i d) (step i d h)
  · simp only [navAdvance]
    rw [if_neg (lt_irrefl _)]
  · simp only [navAdvance]
    rw [if_neg (lt_irrefl _)]

/-- C4 witness: a concrete three-image collection navigated past both
boundaries stays in bounds and the clamps hold. -/
theorem navigate_cursor_clamped_witness :
    navValid 3 (navFold 3 0 [.next, .next, .next, .prev]) ∧
    navAdvance 3 ((3 : Int) - 1) .next = (3 : Int) - 1 ∧
    navAdvance 3 0 .prev = 0 :=
  navigate_cursor_clamped_within_bounds 3 0 [.next, .next, .next, .prev] (by decide)

/-- C5: the board-detection result reports matched exactly when the number
of interpolated ChArUco corners is positive; in particular a non-empty
marker list with no interpolated corners is reported as not matched, while
its marker count is still the length of the marker list. -/
theorem charuco_matched_iff_interpolated (c : CharucoCall) (ms : List Nat) :
    (charucoDetected c = true ↔ 0 < interpolatedCornerCount c) ∧
    charucoDetected (.returns (some ⟨none, some ms⟩)) = false ∧
    markerCount (.returns (some ⟨none, some ms⟩)) = ms.length := by
  refine ⟨?_, rfl, rfl⟩
  cases c with
  | unavailable => simp [charucoDetected, interpolatedCornerCount]
  | raises => simp [charucoDetected, interpolatedCornerCount]
  | returns r =>
    cases r with
    | none => simp [charucoDetected, interpolatedCornerCount]
    | some res =>
      cases hres : res.charucoIds with
      | none => simp [charucoDetected, interpolatedCornerCount, hres]
      | some ids => simp [charucoDetected, interpolatedCornerCount, hres]

/-- C1: the claim requires the scratch file to be deleted even when an
exception is raised during the chunked transfer, but the `finally` block
only deletes when `download_attempted_or_successful` is set, which happens
strictly after the download loop completes; an `HttpError` raised by
`next_chunk` therefore leaves the partial scratch file on disk, while a
processing failure after a completed download does get the file deleted. -/
theorem drive_scratch_file_leak :
    (getProcessedImageDataDrive ⟨1, some ⟨true, false, false⟩, 0⟩ 0
      ⟨true, .raiseHttp 500, true⟩).scratchRemains = true ∧
    (getProcessedImageDataDrive ⟨1, some ⟨true, false, false⟩, 0⟩ 0
      ⟨true, .raiseOther, true⟩).scratchRemains = true ∧
    (getProcessedImageDataDrive ⟨1, some ⟨true, false, false⟩, 0⟩ 0
      ⟨true, .success, false⟩).scratchRemains = false := by
  exact ⟨rfl, rfl, rfl⟩

/-- C6: a drive-branch call that does not succeed leaves the session's
stored cursor unchanged; a 200 result implies the download completed and
processing succeeded, and only then is the cursor set to the requested
index; an out-of-bounds index yields 400 before any I/O is performed.  The
hypothesis records that the Drive client never raises `HttpError` with a
200 status. -/
theorem drive_failure_preserves_cursor (env : DriveEnv) (index : Int)
    (w : DriveWorld)
    (hhttp : ∀ code, w.download = .raiseHttp code → code ≠ 200) :
    ((getProcessedImageDataDrive env index w).status ≠ 200 →
      (getProcessedImageDataDrive env index w).storedIndex = env.storedIndex) ∧
    ((getProcessedImageDataDrive env index w).status = 200 →
      (getProcessedImageDataDrive env index w).storedIndex = index ∧
      w.download = .success ∧ w.processOk = true) ∧
    (¬(0 ≤ index ∧ index < (env.numFiles : Int)) →
      (getProcessedImageDataDrive env index w).status = 400 ∧
      (getProcessedImageDataDrive env index w).ioPerformed = false) := by
  unfold getProcessedImageDataDrive
  split
  · exact ⟨fun _ => rfl, fun h => absurd h (by simp), fun _ => ⟨rfl, rfl⟩⟩
  · next hb =>
    split
    · exact ⟨fun _ => rfl, fun h => absurd h (by simp), fun hco => (hb hco).elim⟩
    · split
      · exact ⟨fun _ => rfl, fun h => absurd h (by simp), fun hco => (hb hco).elim⟩
      · split
        · exact ⟨fun _ => rfl, fun h => absurd h (by simp), fun hco => (hb hco).elim⟩
        · split
          · next code heq =>
            exact ⟨fun _ => rfl, fun h => (hhttp code heq h).elim,
              fun hco => (hb hco).elim⟩
          · exact ⟨fun _ => rfl, fun h => absurd h (by simp),
              fun hco => (hb hco).elim⟩
          · next heq =>
            split
            · next hp =>
              exact ⟨fun hne => absurd rfl hne, fun _ => ⟨rfl, heq, hp⟩,
                fun hco => (hb hco).elim⟩
            · exact ⟨fun _ => rfl, fun h => absurd h (by simp),
                fun hco => (hb hco).elim⟩

/-- C6 witness: a concrete out-of-bounds drive request returns 400, performs
no I/O, and leaves the stored cursor untouched. -/
theorem drive_failure_preserves_cursor_witness :
    (getProcessedImageDataDrive ⟨2, none, 1⟩ 5 ⟨true, .success, true⟩).status = 400 ∧
    (getProcessedImageDataDrive ⟨2, none, 1⟩ 5 ⟨true, .success, true⟩).ioPerformed
      = false ∧
    (getProcessedImageDataDrive ⟨2, none, 1⟩ 5
      ⟨true, .success, true⟩).storedIndex = 1 := by
  have h := drive_failure_preserves_cursor ⟨2, none, 1⟩ 5 ⟨true, .success, true⟩
    (fun code hc => DownloadOutcome.noConfusion hc)
  have hb := h.2.2 (by decide)
  exact ⟨hb.1, hb.2, h.1 (by decide)⟩

/-- C3 counterexample: for the unit-square quad expanded inside a 10×10
image the maximum coordinate is 21/20, the source computes the exclusive
end as `int(max) + 1 = 2`, while the claim's `ceil(max) + 1` is `3`; the
source's crop rectangle therefore differs from the claimed one. -/
theorem cropRect_differs_from_ceil_rule :
    cropRect (clipPoints (expandQuad [(0, 0), (1, 0), (1, 1), (0, 1)]) 10 10) ≠
    specCropRect (clipPoints (expandQuad [(0, 0), (1, 0), (1, 1), (0, 1)]) 10 10) := by
  have h1 : clipPoints (expandQuad [(0, 0), (1, 0), (1, 1), (0, 1)]) 10 10 =
      [(0, 0), (21/20, 0), (21/20, 21/20), (0, 21/20)] := by
    norm_num [clipPoints, expandQuad, centroid, qsum, npClip, min_def, max_def]
  rw [h1]
  have h2 : cropRect [(0, 0), (21/20, 0), (21/20, 21/20), (0, 21/20)] = (0, 0, 2, 2) := by
    norm_num [cropRect, pyInt, minX, minY, maxX, maxY, listMinQ, listMaxQ,
      min_def, max_def]
  have h3 : specCropRect [(0, 0), (21/20, 0), (21/20, 21/20), (0, 21/20)] = (0, 0, 3, 3) := by
    have hc : ⌈(21/20 : ℚ)⌉ = (2 : ℤ) := by
      rw [Int.ceil_eq_iff]
      norm_num
    norm_num [specCropRect, minX, minY, maxX, maxY, listMinQ, listMaxQ,
      min_def, max_def, hc]
  rw [h2, h3]
  decide

/-- Helper: a fold of `min` starting from a non-negative value over
non-negative values stays non-negative. -/
theorem foldl_min_nonneg (xs : List ℚ) :
    ∀ x : ℚ, 0 ≤ x → (∀ q ∈ xs, 0 ≤ q) → 0 ≤ xs.foldl min x := by
  induction xs with
  | nil => intro x hx _; exact hx
  | cons y ys ih =>
    intro x hx hall
    simp only [List.foldl_cons]
    exact ih (min x y) (le_min hx (hall y (List.mem_cons_self y ys)))
      (fun q hq => hall q (List.mem_cons_of_mem y hq))

/-- Helper: a fold of `max` starting from a non-negative value stays
non-negative. -/
theorem foldl_max_nonneg (xs : List ℚ) :
    ∀ x : ℚ, 0 ≤ x → 0 ≤ xs.foldl max x := by
  induction xs with
  | nil => intro x hx; exact hx
  | cons y ys ih =>
    intro x hx
    simp only [List.foldl_cons]
    exact ih (max x y) (le_trans hx (le_max_left x y))

/-- Helper: the minimum of a list of non-negative rationals is
non-negative. -/
theorem listMinQ_nonneg (l : List ℚ) (h : ∀ q ∈ l, 0 ≤ q) : 0 ≤ listMinQ l := by
  cases l with
  | nil => exact le_refl 0
  | cons x xs =>
    exact foldl_min_nonneg xs x (h x (List.mem_cons_self x xs))
      (fun q hq => h q (List.mem_cons_of_mem x hq))

/-- Helper: the maximum of a list of non-negative rationals is
non-negative. -/
theorem listMaxQ_nonneg (l : List ℚ) (h : ∀ q ∈ l, 0 ≤ q) : 0 ≤ listMaxQ l := by
  cases l with
  | nil => exact le_refl 0
  | cons x xs =>
    exact foldl_max_nonneg xs x (h x (List.mem_cons_self x xs))

/-- Helper: clipped coordinates are non-negative (x and y alike), for any
positive image dimensions. -/
theorem clipPoints_nonneg (ps : List Pt) (w h : Nat) (hw : 1 ≤ w) (hh : 1 ≤ h) :
    ∀ p ∈ clipPoints ps w h, 0 ≤ p.1 ∧ 0 ≤ p.2 := by
  intro p hp
  simp only [clipPoints, List.mem_map] at hp
  obtain ⟨q, _, rfl⟩ := hp
  constructor
  · exact le_min (le_max_right _ _) (by
      have : (1 : ℚ) ≤ (w : ℚ) := by exact_mod_cast hw
      linarith)
  · exact le_min (le_max_right _ _) (by
      have : (1 : ℚ) ≤ (h : ℚ) := by exact_mod_cast hh
      linarith)

/-- Helper: Python truncation agrees with floor on non-negative values. -/
theorem pyInt_eq_floor (q : ℚ) (h : 0 ≤ q) : pyInt q = ⌊q⌋ := by
  simp only [pyInt]
  rw [if_neg (not_lt.2 h)]

/-- C3 amended: after expansion and clipping into an image with positive
dimensions the source computes `x0 = ⌊min x⌋`, `y0 = ⌊min y⌋`,
`x1 = ⌊max x⌋ + 1` and `y1 = ⌊max y⌋ + 1` (Python `int()` truncation, equal
to floor because clipped coordinates are non-negative); the claimed
`ceil(max) + 1` exclusive end only coincides when the maximum is integral. -/
theorem cropRect_floor_rule (ps : List Pt) (w h : Nat) (hw : 1 ≤ w) (hh : 1 ≤ h) :
    cropRect (clipPoints (expandQuad ps) w h) =
      (⌊minX (clipPoints (expandQuad ps) w h)⌋,
       ⌊minY (clipPoints (expandQuad ps) w h)⌋,
       ⌊maxX (clipPoints (expandQuad ps) w h)⌋ + 1,
       ⌊maxY (clipPoints (expandQuad ps) w h)⌋ + 1) := by
  have hcoord := clipPoints_nonneg (expandQuad ps) w h hw hh
  have hx : ∀ q ∈ (clipPoints (expandQuad ps) w h).map Prod.fst, 0 ≤ q := by
    intro q hq
    simp only [List.mem_map] at hq
    obtain ⟨p, hp, rfl⟩ := hq
    exact (hcoord p hp).1
  have hy : ∀ q ∈ (clipPoints (expandQuad ps) w h).map Prod.snd, 0 ≤ q := by
    intro q hq
    simp only [List.mem_map] at hq
    obtain ⟨p, hp, rfl⟩ := hq
    exact (hcoord p hp).2
  simp only [cropRect, minX, minY, maxX, maxY]
  rw [pyInt_eq_floor _ (listMinQ_nonneg _ hx), pyInt_eq_floor _ (listMinQ_nonneg _ hy),
    pyInt_eq_floor _ (listMaxQ_nonneg _ hx), pyInt_eq_floor _ (listMaxQ_nonneg _ hy)]

/-- C3 witness: the amended floor rule evaluated on the unit-square quad
inside a 10×10 image. -/
theorem cropRect_floor_rule_witness :
    cropRect (clipPoints (expandQuad [(0, 0), (1, 0), (1, 1), (0, 1)]) 10 10) =
      (⌊minX (clipPoints (expandQuad [(0, 0), (1, 0), (1, 1), (0, 1)]) 10 10)⌋,
       ⌊minY (clipPoints (expandQuad [(0, 0), (1, 0), (1, 1), (0, 1)]) 10 10)⌋,
       ⌊maxX (clipPoints (expandQuad [(0, 0), (1, 0), (1, 1), (0, 1)]) 10 10)⌋ + 1,
       ⌊maxY (clipPoints (expandQuad [(0, 0), (1, 0), (1, 1), (0, 1)]) 10 10)⌋ + 1) :=
  cropRect_floor_rule [(0, 0), (1, 0), (1, 1), (0, 1)] 10 10 (by decide) (by decide)

/-- Helper: a lowercase hexadecimal digit is never ASCII whitespace. -/
theorem hexDigitChar_not_whitespace :
    ∀ i : Fin 16, isPyAsciiWhitespace (hexDigitChar i.val) = false := by
  decide

/-- Helper: `hexValue?` inverts `hexDigitChar` on digit values. -/
theorem hexValue?_hexDigitChar :
    ∀ i : Fin 16, hexValue? (hexDigitChar i.val) = some i := by
  decide

/-- Helper: `bytes.fromhex` inverts `bytes.hex` byte by byte. -/
theorem bytesFromhexAux_flatMap (bs : List Byte) :
    bytesFromhexAux (bs.flatMap byteHexChars) = some bs := by
  induction bs with
  | nil => rfl
  | cons b rest ih =>
    have hdiv : b.val / 16 < 16 := by omega
    have hws := hexDigitChar_not_whitespace ⟨b.val / 16, hdiv⟩
    have hv1 := hexValue?_hexDigitChar ⟨b.val / 16, hdiv⟩
    have hv2 := hexValue?_hexDigitChar ⟨b.val % 16, Nat.mod_lt _ (by omega)⟩
    have hbyte : (⟨16 * (b.val / 16) + b.val % 16, by omega⟩ : Byte) = b :=
      Fin.ext (Nat.div_add_mod b.val 16)
    show bytesFromhexAux (hexDigitChar (b.val / 16) :: hexDigitChar (b.val % 16) ::
      rest.flatMap byteHexChars) = some (b :: rest)
    rw [bytesFromhexAux, hws]
    simp only [Bool.false_eq_true, if_false, hv1, hv2, Option.some_bind, ih,
      hbyte]
    rfl

/-- C7: for every structured document, encoding it as the hexadecimal
representation of the compressed serialized form and then applying the
payload decoder reproduces the document exactly, for every choice of
compression/serialization libraries satisfying their round-trip
contracts. -/
theorem payload_roundtrip {Doc : Type} (M : PayloadCodecModel Doc) (d : Doc) :
    decodeZlibJsonQr M (.str (encodePayload M d)) = some d := by
  have h1 : bytesFromhex (encodePayload M d) =
      some (M.compress (M.utf8Encode (M.jsonDumps d))) :=
    bytesFromhexAux_flatMap (M.compress (M.utf8Encode (M.jsonDumps d)))
  simp only [decodeZlibJsonQr, h1, M.decompress_compress, M.utf8Decode_utf8Encode,
    M.jsonLoads_jsonDumps]

/-- C7 witness: the round trip evaluated with the concrete unit-document
codec. -/
theorem payload_roundtrip_witness :
    decodeZlibJsonQr unitCodecModel (.str (encodePayload unitCodecModel ())) =
      some () :=
  payload_roundtrip unitCodecModel ()

/-- C8: the payload decoder is total and returns `none` exactly when some
stage fails: a non-string input, a hex-decoding failure, a decompression
failure, a utf-8 decoding failure, or a parse failure; in all other cases
it returns a document, and it never raises. -/
theorem decode_none_iff_stage_failure {Doc : Type} (M : PayloadCodecModel Doc)
    (q : QRContent) :
    decodeZlibJsonQr M q = none ↔
      (q = .nonStr ∨ ∃ s, q = .str s ∧
        (bytesFromhex s = none ∨ ∃ bs, bytesFromhex s = some bs ∧
          (M.decompress bs = none ∨ ∃ raw, M.decompress bs = some raw ∧
            (M.utf8Decode raw = none ∨ ∃ js, M.utf8Decode raw = some js ∧
              M.jsonLoads js = none)))) := by
  cases q with
  | nonStr => simp [decodeZlibJsonQr]
  | str s =>
    simp only [decodeZlibJsonQr]
    cases h1 : bytesFromhex s with
    | none => simp [h1]
    | some bs =>
      cases h2 : M.decompress bs with
      | none => simp [h1, h2]
      | some raw =>
        cases h3 : M.utf8Decode raw with
        | none => simp [h1, h2, h3]
        | some js =>
          cases h4 : M.jsonLoads js with
          | none => simp [h1, h2, h3, h4]
          | some d => simp [h1, h2, h3, h4]

/-- C8 witness: the decoder applied to a non-hexadecimal string returns
`none` via the failure characterization. -/
theorem decode_none_iff_stage_failure_witness :
    decodeZlibJsonQr unitCodecModel (.str "zz") = none :=
  (decode_none_iff_stage_failure unitCodecModel (.str "zz")).mpr
    (Or.inr ⟨"zz", rfl, Or.inl (by decide)⟩)

/-- C9: when the detector reports no candidates (either `None` or an empty
list), the locator returns the input raster with its pixel content
unmodified (no drawing happens and no copy is drawn on) together with empty
text and structured-result lists, as a successful — not error — result. -/
theorem zero_candidates_returns_unmodified {Img Doc : Type} (ops : ImgOps Img)
    (M : PayloadCodecModel Doc) (E : QREngine Img) (orig : Img)
    (h : E.detect (ops.toRGB orig) = none ∨ E.detect (ops.toRGB orig) = some []) :
    detectAndDrawQrcodes ops M E (.array orig) = some ([orig], [], []) := by
  rcases h with h | h <;>
    simp [detectAndDrawQrcodes, detectAndDrawQrcodesLoaded, h]

/-- C9 witness: the zero-candidate result on a concrete raster and
engine. -/
theorem zero_candidates_returns_unmodified_witness :
    detectAndDrawQrcodes natImgOps unitCodecModel emptyEngine (.array 7) =
      some ([7], [], []) :=
  zero_candidates_returns_unmodified natImgOps unitCodecModel emptyEngine 7
    (Or.inl rfl)

/-- C2 amended: in the flask locator a candidate whose decode raises or
yields no text leaves the loop state — display raster, copy flag, crop list,
text list and structured-result list — completely unchanged: nothing is
drawn and nothing is appended. -/
theorem undecodable_candidate_dropped {Img Doc : Type} (ops : ImgOps Img)
    (M : PayloadCodecModel Doc) (E : QREngine Img) (orig rgb : Img)
    (st : LocatorState Img Doc) (d : Detection)
    (h : E.decode rgb d = .raises ∨ E.decode rgb d = .decoded none) :
    processCandidate ops M E orig rgb st d = st := by
  rcases h with h | h <;> simp [processCandidate, h]

/-- C2 witness: the flask candidate step with a raising decoder leaves a
concrete empty state untouched. -/
theorem undecodable_candidate_dropped_witness :
    processCandidate natImgOps unitCodecModel raisingEngine 0 0
      ⟨0, false, [], [], []⟩ demoDetection = ⟨0, false, [], [], []⟩ :=
  undecodable_candidate_dropped natImgOps unitCodecModel raisingEngine 0 0
    ⟨0, false, [], [], []⟩ demoDetection (Or.inl rfl)

/-- C2 counterexample: in the standalone locator
(detect_and_draw_qr.py), the same candidate whose decode raises still has
its polygon drawn (the display raster changes) and its crop appended, so the
claim is false of that variant. -/
theorem standalone_annotates_undecodable_candidate :
    raisingEngine.decode 0 demoDetection = .raises ∧
    (processCandidateStandalone natImgOps 0 ⟨0, []⟩ demoDetection).crops.length
      = 1 ∧
    (processCandidateStandalone natImgOps 0 ⟨0, []⟩ demoDetection).display
      = 1 := by
  have hr : cropRect (clipPoints (expandQuad [(1, 2), (5, 2), (5, 6), (1, 6)])
      10 10) = (0, 1, 6, 7) := by
    have h1 : clipPoints (expandQuad [(1, 2), (5, 2), (5, 6), (1, 6)]) 10 10 =
        [(4/5, 9/5), (26/5, 9/5), (26/5, 31/5), (4/5, 31/5)] := by
      norm_num [clipPoints, expandQuad, centroid, qsum, npClip, min_def, max_def]
    rw [h1]
    norm_num [cropRect, pyInt, minX, minY, maxX, maxY, listMinQ, listMaxQ,
      min_def, max_def]
  have hstep : processCandidateStandalone natImgOps 0 ⟨0, []⟩ demoDetection =
      ⟨1, [0]⟩ := by
    norm_num [processCandidateStandalone, demoDetection, natImgOps, hr]
  exact ⟨rfl, by rw [hstep]; rfl, by rw [hstep]⟩

/-- Helper: one flask candidate step preserves the pairwise length
alignment of the crop, text and structured-result lists. -/
theorem processCandidate_alignment {Img Doc : Type} (ops : ImgOps Img)
    (M : PayloadCodecModel Doc) (E : QREngine Img) (orig rgb : Img)
    (st : LocatorState Img Doc) (d : Detection)
    (h1 : st.crops.length = st.texts.length)
    (h2 : st.texts.length = st.jsons.length) :
    (processCandidate ops M E orig rgb st d).crops.length =
      (processCandidate ops M E orig rgb st d).texts.length ∧
    (processCandidate ops M E orig rgb st d).texts.length =
      (processCandidate ops M E orig rgb st d).jsons.length := by
  unfold processCandidate
  split
  · exact ⟨h1, h2⟩
  · exact ⟨h1, h2⟩
  · split
    · exact ⟨h1, h2⟩
    · exact ⟨h1, h2⟩
    · dsimp only
      split
      · split
        · simp [h1, h2]
        · exact ⟨h1, h2⟩
      · exact ⟨h1, h2⟩

/-- Helper: the candidate fold preserves the length alignment. -/
theorem foldl_processCandidate_alignment {Img Doc : Type} (ops : ImgOps Img)
    (M : PayloadCodecModel Doc) (E : QREngine Img) (orig rgb : Img)
    (ds : List Detection) :
    ∀ st : LocatorState Img Doc, st.crops.length = st.texts.length →
      st.texts.length = st.jsons.length →
      (ds.foldl (processCandidate ops M E orig rgb) st).crops.length =
        (ds.foldl (processCandidate ops M E orig rgb) st).texts.length ∧
      (ds.foldl (processCandidate ops M E orig rgb) st).texts.length =
        (ds.foldl (processCandidate ops M E orig rgb) st).jsons.length := by
  induction ds with
  | nil => intro st h1 h2; exact ⟨h1, h2⟩
  | cons d rest ih =>
    intro st h1 h2
    have hstep := processCandidate_alignment ops M E orig rgb st d h1 h2
    exact ih (processCandidate ops M E orig rgb st d) hstep.1 hstep.2

/-- Helper: the loaded-image locator body returns aligned lists: texts and
structured results have equal length, and the image list is one longer than
the text list. -/
theorem detectLoaded_aligned {Img Doc : Type} (ops : ImgOps Img)
    (M : PayloadCodecModel Doc) (E : QREngine Img) (orig : Img) :
    (detectAndDrawQrcodesLoaded ops M E orig).2.1.length =
      (detectAndDrawQrcodesLoaded ops M E orig).2.2.length ∧
    (detectAndDrawQrcodesLoaded ops M E orig).1.length =
      (detectAndDrawQrcodesLoaded ops M E orig).2.1.length + 1 := by
  have halign := foldl_processCandidate_alignment ops M E orig (ops.toRGB orig)
    ((E.detect (ops.toRGB orig)).getD []) ⟨orig, false, [], [], []⟩ rfl rfl
  unfold detectAndDrawQrcodesLoaded
  refine ⟨halign.2, ?_⟩
  have h1 := halign.1
  simp only [List.length_cons]
  omega

/-- C10: the three sequences returned by the locator are aligned: the text
list and the structured-result list have equal length, and the image list
holds exactly one more element (the display raster in front of the crops),
because the three appends happen together in a single branch. -/
theorem detect_lists_aligned {Img Doc : Type} (ops : ImgOps Img)
    (M : PayloadCodecModel Doc) (E : QREngine Img) (input : ImageInput Img)
    (imgs : List Img) (texts : List String) (jsons : List (Option Doc))
    (h : detectAndDrawQrcodes ops M E input = some (imgs, texts, jsons)) :
    texts.length = jsons.length ∧ imgs.length = texts.length + 1 := by
  cases input with
  | invalid => simp [detectAndDrawQrcodes] at h
  | path load =>
    cases load with
    | none => simp [detectAndDrawQrcodes] at h
    | some orig =>
      have hl := detectLoaded_aligned ops M E orig
      have heq : detectAndDrawQrcodesLoaded ops M E orig = (imgs, texts, jsons) :=
        Option.some.inj h
      rw [heq] at hl
      exact hl
  | array orig =>
    have hl := detectLoaded_aligned ops M E orig
    have heq : detectAndDrawQrcodesLoaded ops M E orig = (imgs, texts, jsons) :=
      Option.some.inj h
    rw [heq] at hl
    exact hl

/-- C10 witness: a concrete run whose single candidate fails to decode
yields empty text and structured-result lists and a one-element image
list. -/
theorem detect_lists_aligned_witness :
    ([] : List String).length = ([] : List (Option Unit)).length ∧
    ([0] : List Nat).length = ([] : List String).length + 1 :=
  detect_lists_aligned natImgOps unitCodecModel raisingEngine (.array 0)
    [0] [] [] rfl
